import Mathlib

/-!
Verification of the core filter / aggregate / recommend pipeline of the
GenAI adoption dashboard (src/streamlit_app.py), shallowly embedded in Lean.

Modelling conventions:
* The pandas data frame is a `List Record`, one `Record` per row, in file order.
* Numeric columns (`Training_Hours`, `Productivity_Change`) are rationals;
  the pandas floats are modelled exactly.
* A sidebar selectbox is an `Option` value: `none` models the "All" choice,
  `some v` models a selected value `v`.
* `pandas.Series.mean()` over an empty selection evaluates to the floating
  NaN value; this undefined marker is modelled as `Option.none` (a normal
  return value, not an exception).
* Python `int()` truncation toward zero is `pyInt`.
-/

namespace GenAIDash

/-- One row of the normalized data frame (the columns produced by the
renaming in `load_data`, lines 17-34 of src/streamlit_app.py). -/
structure Record where
  company : String
  industry : String
  country : String
  tool : String
  year : Int
  employees : Nat
  newRoles : Nat
  trainingHours : ℚ
  productivity : ℚ
  sentiment : String
deriving DecidableEq

/-- The four sidebar selectbox choices (lines 42-45): `none` is "All". -/
structure Filters where
  industry : Option String
  country : Option String
  tool : Option String
  year : Option Int
deriving DecidableEq

/-- A single selectbox constraint: "All" (`none`) lets every value pass,
a selected value requires equality. -/
def optEq {α : Type} [BEq α] (o : Option α) (x : α) : Bool :=
  match o with
  | none => true
  | some v => x == v

/-- Lines 48-60, as intended: start from the whole table and apply each
sidebar constraint in turn (each `if ... != "All"` block is one
conditional equality filter over the running frame).  The code's tool
branch (line 57) actually reads the stale column name `GenAI Tool`,
which `load_data` renamed to `GenAI_Tool`, and therefore raises
`KeyError`; that error path is modelled by `filtered_df_run` below,
which agrees with this function exactly when the tool constraint is
inactive.  This function is the error-free filter contract that the
rest of the page (and every other claim) builds on. -/
def filtered_df (tbl : List Record) (f : Filters) : List Record :=
  let d1 := match f.industry with
    | none => tbl
    | some v => tbl.filter (fun r => r.industry == v)
  let d2 := match f.country with
    | none => d1
    | some v => d1.filter (fun r => r.country == v)
  let d3 := match f.tool with
    | none => d2
    | some v => d2.filter (fun r => r.tool == v)
  match f.year with
  | none => d3
  | some y => d3.filter (fun r => r.year == y)

/-- Lines 48-60 as they actually execute: the industry and country
filters apply; then, whenever the tool selectbox is active, line 57's
body evaluates `filtered_df["GenAI Tool"]` — a column that `load_data`
renamed to `GenAI_Tool` — so pandas raises `KeyError` and no view is
produced; with the tool constraint inactive the year filter applies and
the view is returned.  (Line 44 builds the tool selectbox from the same
stale name, crashing the page the same way before any tool constraint
could even be selected.) -/
def filtered_df_run (tbl : List Record) (f : Filters) :
    Except String (List Record) :=
  let d1 := match f.industry with
    | none => tbl
    | some v => tbl.filter (fun r => r.industry == v)
  let d2 := match f.country with
    | none => d1
    | some v => d1.filter (fun r => r.country == v)
  match f.tool with
  | some _ => Except.error "KeyError: GenAI Tool"
  | none =>
    match f.year with
    | none => Except.ok d2
    | some y => Except.ok (d2.filter (fun r => r.year == y))

/-- The conjunction of all four active sidebar constraints on one row. -/
def rowOk (f : Filters) (r : Record) : Bool :=
  optEq f.industry r.industry && optEq f.country r.country &&
    optEq f.tool r.tool && optEq f.year r.year

theorem optEq_true_iff {α : Type} [DecidableEq α] (o : Option α) (x : α) :
    optEq (α := α) o x = true ↔ ∀ v, o = some v → x = v := by
  cases o with
  | none => simp [optEq]
  | some v => simp [optEq, beq_iff_eq]

theorem filtered_df_eq_filter (tbl : List Record) (f : Filters) :
    filtered_df tbl f = tbl.filter (fun r => rowOk f r) := by
  obtain ⟨i, c, t, y⟩ := f
  cases i <;> cases c <;> cases t <;> cases y <;>
    simp [filtered_df, rowOk, optEq, List.filter_filter, Bool.and_comm,
      Bool.and_left_comm, Bool.and_assoc]

theorem mem_filtered_df (tbl : List Record) (f : Filters) (r : Record) :
    r ∈ filtered_df tbl f ↔
      r ∈ tbl ∧
      (∀ v, f.industry = some v → r.industry = v) ∧
      (∀ v, f.country = some v → r.country = v) ∧
      (∀ v, f.tool = some v → r.tool = v) ∧
      (∀ v, f.year = some v → r.year = v) := by
  rw [filtered_df_eq_filter, List.mem_filter]
  constructor
  · rintro ⟨hm, hok⟩
    refine ⟨hm, ?_, ?_, ?_, ?_⟩ <;>
      · rw [rowOk] at hok
        simp only [Bool.and_eq_true] at hok
        first
        | exact (optEq_true_iff _ _).mp hok.1.1.1
        | exact (optEq_true_iff _ _).mp hok.1.1.2
        | exact (optEq_true_iff _ _).mp hok.1.2
        | exact (optEq_true_iff _ _).mp hok.2
  · rintro ⟨hm, h1, h2, h3, h4⟩
    refine ⟨hm, ?_⟩
    rw [rowOk]
    simp only [Bool.and_eq_true]
    exact ⟨⟨⟨(optEq_true_iff _ _).mpr h1, (optEq_true_iff _ _).mpr h2⟩,
      (optEq_true_iff _ _).mpr h3⟩, (optEq_true_iff _ _).mpr h4⟩

theorem filtered_df_sublist (tbl : List Record) (f : Filters) :
    (filtered_df tbl f).Sublist tbl := by
  rw [filtered_df_eq_filter]; exact List.filter_sublist tbl

/-- On every input where the code does not crash — the tool constraint
inactive — the executable pipeline agrees with the error-free filter
contract. -/
theorem filtered_df_run_ok (tbl : List Record) (f : Filters)
    (h : f.tool = none) :
    filtered_df_run tbl f = Except.ok (filtered_df tbl f) := by
  obtain ⟨i, c, t, y⟩ := f
  cases t with
  | some v => simp at h
  | none => cases i <;> cases c <;> cases y <;> rfl

/-- C8: with no active constraint (every selectbox at "All") the filter
pipeline returns the full table unchanged. -/
theorem c8_no_constraints_identity (tbl : List Record) :
    filtered_df tbl ⟨none, none, none, none⟩ = tbl := rfl

/-! ### Recommendation view (lines 109-115) -/

/-- Lines 109-115: the recommendation slice starts from the already
filtered sidebar view and conjoins the two recommendation selectboxes
(`none` models "(All industries)" / "(All countries)"). -/
def rec_view (tbl : List Record) (f : Filters) (ri rc : Option String) :
    List Record :=
  let d := filtered_df tbl f
  let d1 := match ri with
    | none => d
    | some v => d.filter (fun r => r.industry == v)
  match rc with
  | none => d1
  | some v => d1.filter (fun r => r.country == v)

theorem rec_view_eq_filter (tbl : List Record) (f : Filters)
    (ri rc : Option String) :
    rec_view tbl f ri rc =
      (filtered_df tbl f).filter
        (fun r => optEq ri r.industry && optEq rc r.country) := by
  cases ri <;> cases rc <;>
    simp [rec_view, optEq, List.filter_filter, Bool.and_comm]

/-- C9: the recommendation view is a subsequence of the sidebar-filtered
view, and every row used by the recommendation satisfies all active
sidebar constraints as well as the recommendation-specific industry and
country constraints. -/
theorem c9_rec_view_refines_filtered (tbl : List Record) (f : Filters)
    (ri rc : Option String) :
    (rec_view tbl f ri rc).Sublist (filtered_df tbl f) ∧
    (∀ r ∈ rec_view tbl f ri rc,
      r ∈ tbl ∧
      (∀ v, f.industry = some v → r.industry = v) ∧
      (∀ v, f.country = some v → r.country = v) ∧
      (∀ v, f.tool = some v → r.tool = v) ∧
      (∀ v, f.year = some v → r.year = v) ∧
      (∀ v, ri = some v → r.industry = v) ∧
      (∀ v, rc = some v → r.country = v)) := by
  constructor
  · rw [rec_view_eq_filter]; exact List.filter_sublist _
  · intro r hr
    rw [rec_view_eq_filter, List.mem_filter, Bool.and_eq_true] at hr
    obtain ⟨hmem, hri, hrc⟩ := hr
    obtain ⟨htbl, h1, h2, h3, h4⟩ := (mem_filtered_df tbl f r).mp hmem
    exact ⟨htbl, h1, h2, h3, h4,
      (optEq_true_iff _ _).mp hri, (optEq_true_iff _ _).mp hrc⟩

/-! ### Column statistics -/

/-- `Series.min()` over a (nonempty, in all uses) column. -/
def colMin (xs : List ℚ) : ℚ :=
  match xs with
  | [] => 0
  | x :: r => r.foldl min x

/-- `Series.max()` over a (nonempty, in all uses) column. -/
def colMax (xs : List ℚ) : ℚ :=
  match xs with
  | [] => 0
  | x :: r => r.foldl max x

/-- `Series.mean()` as pandas computes it: the arithmetic mean for a
nonempty selection, and the undefined NaN marker (modelled `none`) for
an empty one — pandas returns NaN silently, it does not raise. -/
def colMeanOpt (xs : List ℚ) : Option ℚ :=
  if xs.isEmpty then none else some (xs.sum / xs.length)

/-- Arithmetic mean of a column, used only where the column is known to
be nonempty (the guarded branches of the recommendation section). -/
def meanQ (xs : List ℚ) : ℚ := xs.sum / xs.length

theorem foldl_min_le_init (l : List ℚ) (x : ℚ) : l.foldl min x ≤ x := by
  induction l generalizing x with
  | nil => exact le_refl x
  | cons a t ih => exact le_trans (ih (min x a)) (min_le_left x a)

theorem foldl_min_le_mem (l : List ℚ) (x a : ℚ) (ha : a ∈ l) :
    l.foldl min x ≤ a := by
  induction l generalizing x with
  | nil => cases ha
  | cons b t ih =>
    rcases List.mem_cons.mp ha with h | h
    · subst h
      exact le_trans (foldl_min_le_init t (min x a)) (min_le_right x a)
    · exact ih (min x b) h

theorem init_le_foldl_max (l : List ℚ) (x : ℚ) : x ≤ l.foldl max x := by
  induction l generalizing x with
  | nil => exact le_refl x
  | cons a t ih => exact le_trans (le_max_left x a) (ih (max x a))

theorem mem_le_foldl_max (l : List ℚ) (x a : ℚ) (ha : a ∈ l) :
    a ≤ l.foldl max x := by
  induction l generalizing x with
  | nil => cases ha
  | cons b t ih =>
    rcases List.mem_cons.mp ha with h | h
    · subst h
      exact le_trans (le_max_right x a) (init_le_foldl_max t (max x a))
    · exact ih (max x b) h

theorem colMin_le_colMax (xs : List ℚ) (h : xs ≠ []) :
    colMin xs ≤ colMax xs := by
  cases xs with
  | nil => exact absurd rfl h
  | cons x r =>
    exact le_trans (foldl_min_le_init r x) (init_le_foldl_max r x)

theorem colMin_le_mem (xs : List ℚ) (a : ℚ) (ha : a ∈ xs) :
    colMin xs ≤ a := by
  cases xs with
  | nil => cases ha
  | cons x r =>
    rcases List.mem_cons.mp ha with h | h
    · subst h; exact foldl_min_le_init r a
    · exact foldl_min_le_mem r x a h

theorem mem_le_colMax (xs : List ℚ) (a : ℚ) (ha : a ∈ xs) :
    a ≤ colMax xs := by
  cases xs with
  | nil => cases ha
  | cons x r =>
    rcases List.mem_cons.mp ha with h | h
    · subst h; exact init_le_foldl_max r a
    · exact mem_le_foldl_max r x a h

/-! ### Grouped means and descending ranking (lines 122-133, 207-211) -/

/-- Descending insertion by the numeric component, used to model
`sort_values(..., ascending=False)`. -/
def insDesc (x : String × ℚ) : List (String × ℚ) → List (String × ℚ)
  | [] => [x]
  | y :: ys => if y.2 < x.2 then x :: y :: ys else y :: insDesc x ys

/-- `sort_values("Productivity_Change", ascending=False)` on a keyed
column of means. pandas' quicksort leaves the order of ties unspecified;
this model realizes one deterministic choice. -/
def sortDesc : List (String × ℚ) → List (String × ℚ)
  | [] => []
  | x :: xs => insDesc x (sortDesc xs)

theorem mem_insDesc (x a : String × ℚ) (l : List (String × ℚ)) :
    a ∈ insDesc x l ↔ a = x ∨ a ∈ l := by
  induction l with
  | nil => simp [insDesc]
  | cons y ys ih =>
    by_cases h : y.2 < x.2
    · simp [insDesc, h]
    · simp only [insDesc, if_neg h, List.mem_cons, ih]
      tauto

theorem mem_sortDesc (a : String × ℚ) (l : List (String × ℚ)) :
    a ∈ sortDesc l ↔ a ∈ l := by
  induction l with
  | nil => simp [sortDesc]
  | cons x xs ih => simp [sortDesc, mem_insDesc, ih]

theorem length_insDesc (x : String × ℚ) (l : List (String × ℚ)) :
    (insDesc x l).length = l.length + 1 := by
  induction l with
  | nil => rfl
  | cons y ys ih =>
    by_cases h : y.2 < x.2
    · simp [insDesc, h]
    · simp [insDesc, h, ih]

theorem length_sortDesc (l : List (String × ℚ)) :
    (sortDesc l).length = l.length := by
  induction l with
  | nil => rfl
  | cons x xs ih => simp [sortDesc, length_insDesc, ih]

theorem pairwise_insDesc (x : String × ℚ) (l : List (String × ℚ))
    (h : l.Pairwise (fun a b => b.2 ≤ a.2)) :
    (insDesc x l).Pairwise (fun a b => b.2 ≤ a.2) := by
  induction l with
  | nil => simp [insDesc]
  | cons y ys ih =>
    by_cases hlt : y.2 < x.2
    · rw [insDesc, if_pos hlt, List.pairwise_cons]
      refine ⟨?_, h⟩
      intro b hb
      rcases List.mem_cons.mp hb with hb | hb
      · exact hb ▸ le_of_lt hlt
      · exact le_trans ((List.pairwise_cons.mp h).1 b hb) (le_of_lt hlt)
    · rw [insDesc, if_neg hlt, List.pairwise_cons]
      obtain ⟨hy, hys⟩ := List.pairwise_cons.mp h
      refine ⟨?_, ih hys⟩
      intro b hb
      rcases (mem_insDesc x b ys).mp hb with hb | hb
      · exact hb ▸ le_of_not_lt hlt
      · exact hy b hb

theorem sorted_sortDesc (l : List (String × ℚ)) :
    (sortDesc l).Pairwise (fun a b => b.2 ≤ a.2) := by
  induction l with
  | nil => simp [sortDesc]
  | cons x xs ih => exact pairwise_insDesc x (sortDesc xs) ih

theorem le_head_of_mem_sortDesc (l : List (String × ℚ)) (p : String × ℚ)
    (t : List (String × ℚ)) (heq : sortDesc l = p :: t)
    (a : String × ℚ) (ha : a ∈ l) : a.2 ≤ p.2 := by
  have hs := sorted_sortDesc l
  rw [heq] at hs
  have hmem : a ∈ p :: t := by
    rw [← heq]; exact (mem_sortDesc a l).mpr ha
  rcases List.mem_cons.mp hmem with h | h
  · exact h ▸ le_refl _
  · exact (List.pairwise_cons.mp hs).1 a h

/-- The distinct grouping keys of `groupby("GenAI_Tool")`.  (pandas also
sorts the keys alphabetically; since the frame is immediately re-sorted
by mean, the key order only influences which of several tied tools comes
first, which is unspecified, so first-occurrence order is used.) -/
def toolKeys (view : List Record) : List String :=
  (view.map (fun r => r.tool)).dedup

/-- The rows of one `groupby` group: the rows of the view carrying the
given tool key. -/
def groupRows (view : List Record) (k : String) : List Record :=
  view.filter (fun r => r.tool == k)

/-- `groupby("GenAI_Tool")["Productivity_Change"].mean()`: one
`(key, mean)` pair per distinct tool in the view. -/
def groupMeans (view : List Record) : List (String × ℚ) :=
  (toolKeys view).map
    (fun k => (k, meanQ ((groupRows view k).map (fun r => r.productivity))))

/-- Lines 123-128: group by tool, take the mean productivity change per
group, and sort descending by that mean. -/
def by_tool (view : List Record) : List (String × ℚ) :=
  sortDesc (groupMeans view)

/-- Line 131: `top_row["GenAI_Tool"]` of `by_tool.iloc[0]` (the default
is junk, never reached when the view is nonempty). -/
def top_tool (view : List Record) : String :=
  ((by_tool view).headD ("", 0)).1

/-- Line 132: the top row's mean productivity change. -/
def top_prod (view : List Record) : ℚ :=
  ((by_tool view).headD ("", 0)).2

/-- Line 133: the number of rows of the view whose tool is the top tool. -/
def n_recs (view : List Record) : ℕ :=
  (view.filter (fun r => r.tool == top_tool view)).length

theorem by_tool_ne_nil (view : List Record) (h : view ≠ []) :
    by_tool view ≠ [] := by
  intro hnil
  have hlen : (by_tool view).length = 0 := by rw [hnil]; rfl
  rw [by_tool, length_sortDesc, groupMeans, List.length_map] at hlen
  have : (view.map (fun r => r.tool)).dedup = [] :=
    List.eq_nil_of_length_eq_zero hlen
  rw [List.dedup_eq_nil, List.map_eq_nil_iff] at this
  exact h this

theorem by_tool_head_shape (view : List Record) (p : String × ℚ)
    (t : List (String × ℚ)) (heq : by_tool view = p :: t) :
    p.1 ∈ toolKeys view ∧
    p.2 = meanQ ((groupRows view p.1).map (fun r => r.productivity)) := by
  have hp : p ∈ groupMeans view := by
    rw [← mem_sortDesc p (groupMeans view), ← by_tool, heq]
    exact List.mem_cons_self p t
  rw [groupMeans] at hp
  obtain ⟨k, hk, hkp⟩ := List.mem_map.mp hp
  obtain rfl := hkp.symm
  exact ⟨hk, rfl⟩

/-- C3: for a nonempty view, the recommendation's best tool is the head
of the per-tool mean-productivity ranking sorted descending: it is a tool
occurring in the view, its reported value is the arithmetic mean of the
productivity change over exactly the view's rows with that tool, the
reported count is the number of such rows, and no tool in the view has a
strictly greater mean (head of the descending order). -/
theorem c3_best_tool (view : List Record) (h : view ≠ []) :
    top_tool view ∈ view.map (fun r => r.tool) ∧
    top_prod view =
      meanQ ((view.filter (fun r => r.tool == top_tool view)).map
        (fun r => r.productivity)) ∧
    n_recs view =
      (view.filter (fun r => r.tool == top_tool view)).length ∧
    ∀ k ∈ view.map (fun r => r.tool),
      meanQ ((view.filter (fun r => r.tool == k)).map
        (fun r => r.productivity)) ≤ top_prod view := by
  obtain ⟨p, t, heq⟩ := List.exists_cons_of_ne_nil (by_tool_ne_nil view h)
  have htt : top_tool view = p.1 := by rw [top_tool, heq]; rfl
  have htp : top_prod view = p.2 := by rw [top_prod, heq]; rfl
  obtain ⟨hk, hmean⟩ := by_tool_head_shape view p t heq
  refine ⟨?_, ?_, rfl, ?_⟩
  · rw [htt]
    exact (List.mem_dedup).mp hk
  · rw [htp, hmean, htt]
    rfl
  · intro k hkv
    have hkd : k ∈ toolKeys view := List.mem_dedup.mpr hkv
    have hmem : (k, meanQ ((groupRows view k).map (fun r => r.productivity)))
        ∈ groupMeans view := by
      rw [groupMeans]
      exact List.mem_map_of_mem _ hkd
    have := le_head_of_mem_sortDesc (groupMeans view) p t
      (by rw [← by_tool]; exact heq) _ hmem
    rw [htp]
    exact this

/-! ### Training-hours window and estimate (lines 141-174) -/

/-- Python `int()` on a number: truncation toward zero. -/
def pyInt (q : ℚ) : ℤ := if 0 ≤ q then ⌊q⌋ else ⌈q⌉

theorem pyInt_of_nonneg {q : ℚ} (h : 0 ≤ q) : pyInt q = ⌊q⌋ := if_pos h

theorem pyInt_mono {p q : ℚ} (h : p ≤ q) : pyInt p ≤ pyInt q := by
  rw [pyInt, pyInt]
  by_cases hp : 0 ≤ p
  · rw [if_pos hp, if_pos (le_trans hp h)]
    exact Int.floor_le_floor h
  · rw [if_neg hp]
    by_cases hq : 0 ≤ q
    · rw [if_pos hq]
      have h1 : ⌈p⌉ ≤ 0 :=
        Int.ceil_le.mpr (by exact_mod_cast le_of_lt (not_le.mp hp))
      have h2 : (0 : ℤ) ≤ ⌊q⌋ := Int.le_floor.mpr (by exact_mod_cast hq)
      exact le_trans h1 h2
    · rw [if_neg hq]
      exact Int.ceil_le_ceil h

/-- Line 142: `int(rec_df["Training_Hours"].min())`. -/
def min_train (view : List Record) : ℤ :=
  pyInt (colMin (view.map (fun r => r.trainingHours)))

/-- Line 143: `int(rec_df["Training_Hours"].max())`. -/
def max_train (view : List Record) : ℤ :=
  pyInt (colMax (view.map (fun r => r.trainingHours)))

/-- Line 154: `train_range = max_train - min_train`. -/
def train_range (view : List Record) : ℤ :=
  max_train view - min_train view

/-- Line 155: `window = max(50, int(0.1 * train_range))`. -/
def window (view : List Record) : ℤ :=
  max 50 (pyInt ((1 / 10 : ℚ) * (train_range view : ℚ)))

/-- Lines 146-151: the planned-hours slider.  The widget keeps its value
inside `[min_value, max_value]`, so it is modelled as an arbitrary user
choice `u` clamped to the bounds the code passes in, which are taken from
the view's training-hours column (the default, `int` of the median, is
one such in-range choice). -/
def plannedHours (view : List Record) (u : ℤ) : ℤ :=
  max (min_train view) (min (max_train view) u)

/-- Lines 157-160: the rows whose training hours lie within
`[planned - window, planned + window]` inclusive. -/
def close_df (view : List Record) (planned w : ℤ) : List Record :=
  view.filter (fun r =>
    decide (((planned - w : ℤ) : ℚ) ≤ r.trainingHours) &&
    decide (r.trainingHours ≤ ((planned + w : ℤ) : ℚ)))

/-- Which of the two message branches (lines 162-174) produced the
expected-productivity figure. -/
inductive EstKind where
  | windowed
  | fallback
deriving DecidableEq

/-- Lines 162-174: fall back to the whole view's mean when no row is
close to the planned hours, otherwise average the close rows. -/
def estimate (view : List Record) (planned w : ℤ) : ℚ × EstKind :=
  let c := close_df view planned w
  if c.isEmpty then
    (meanQ (view.map (fun r => r.productivity)), EstKind.fallback)
  else
    (meanQ (c.map (fun r => r.productivity)), EstKind.windowed)

/-- The displayable outcome of the recommendation section: either the
"no records" info message (line 118) or the advice block with the best
tool, its mean, its count, and the expected productivity estimate. -/
inductive RecOutcome where
  | noData
  | advice (tool : String) (meanProd : ℚ) (count : ℕ) (planned : ℤ)
      (expected : ℚ) (kind : EstKind)
deriving DecidableEq

/-- Lines 117-174: the whole recommendation section as a function of the
recommendation view and the slider choice `u`. -/
def recommend (view : List Record) (u : ℤ) : RecOutcome :=
  if view.isEmpty then RecOutcome.noData
  else
    let planned := plannedHours view u
    let e := estimate view planned (window view)
    RecOutcome.advice (top_tool view) (top_prod view) (n_recs view)
      planned e.1 e.2

/-- The three KPI figures of lines 71-86, computed from the filtered
view: record count and the two column means (`none` models the NaN that
pandas produces on an empty frame). -/
structure KPIs where
  nRecords : ℕ
  avgProd : Option ℚ
  avgTrain : Option ℚ
deriving DecidableEq

def kpis (tbl : List Record) (f : Filters) : KPIs :=
  ⟨(filtered_df tbl f).length,
   colMeanOpt ((filtered_df tbl f).map (fun r => r.productivity)),
   colMeanOpt ((filtered_df tbl f).map (fun r => r.trainingHours))⟩

/-- The recommendation section's outcome as seen from the page inputs. -/
def recOutcome (tbl : List Record) (f : Filters) (ri rc : Option String)
    (u : ℤ) : RecOutcome :=
  recommend (rec_view tbl f ri rc) u

/-- Lines 207-211: `groupby("GenAI_Tool")["Productivity_Change"].mean()`
with pandas' mean semantics made explicit (`none` = NaN). -/
def toolProductivity (view : List Record) : List (String × Option ℚ) :=
  (toolKeys view).map
    (fun k => (k, colMeanOpt ((groupRows view k).map (fun r => r.productivity))))

/-! ### Sample rows used to instantiate the theorems -/

def rA : Record :=
  ⟨"a", "Tech", "US", "ToolA", 2022, 10, 1, 10, 5, "positive"⟩

def rB : Record :=
  ⟨"b", "Finance", "DE", "ToolB", 2023, 20, 2, 100, 15, "neutral"⟩

def rC : Record :=
  ⟨"c", "Tech", "US", "ToolA", 2022, 10, 1, 1 / 2, 5, "positive"⟩

def rD : Record :=
  ⟨"d", "Tech", "US", "ToolA", 2022, 10, 1, 5159 / 10, 15, "positive"⟩

/-! ### C2: windowed / fallback estimate -/

theorem mem_close_df (view : List Record) (planned w : ℤ) (r : Record) :
    r ∈ close_df view planned w ↔
      r ∈ view ∧ ((planned - w : ℤ) : ℚ) ≤ r.trainingHours ∧
        r.trainingHours ≤ ((planned + w : ℤ) : ℚ) := by
  rw [close_df, List.mem_filter]
  simp only [Bool.and_eq_true, decide_eq_true_eq, and_assoc]

/-- C2: for a nonempty view, the close-rows sub-view consists of exactly
the rows whose training hours lie in the inclusive window around the
planned hours; if there is no such row the estimate is the mean over the
whole view flagged as a fallback, otherwise it is the mean over the
close rows flagged as windowed. -/
theorem c2_estimate (view : List Record) (planned w : ℤ) (_h : view ≠ []) :
    (∀ r : Record, r ∈ close_df view planned w ↔
      r ∈ view ∧ ((planned - w : ℤ) : ℚ) ≤ r.trainingHours ∧
        r.trainingHours ≤ ((planned + w : ℤ) : ℚ)) ∧
    ((∀ r ∈ view, ¬ (((planned - w : ℤ) : ℚ) ≤ r.trainingHours ∧
        r.trainingHours ≤ ((planned + w : ℤ) : ℚ))) →
      estimate view planned w =
        (meanQ (view.map (fun r => r.productivity)), EstKind.fallback)) ∧
    ((∃ r ∈ view, ((planned - w : ℤ) : ℚ) ≤ r.trainingHours ∧
        r.trainingHours ≤ ((planned + w : ℤ) : ℚ)) →
      estimate view planned w =
        (meanQ ((close_df view planned w).map (fun r => r.productivity)),
          EstKind.windowed)) := by
  refine ⟨mem_close_df view planned w, ?_, ?_⟩
  · intro hnone
    have hc : close_df view planned w = [] := by
      rw [List.eq_nil_iff_forall_not_mem]
      intro r hr
      obtain ⟨hv, h1, h2⟩ := (mem_close_df view planned w r).mp hr
      exact hnone r hv ⟨h1, h2⟩
    simp only [estimate]
    rw [hc]
    rfl
  · rintro ⟨r, hr, h1, h2⟩
    have hc : close_df view planned w ≠ [] :=
      List.ne_nil_of_mem ((mem_close_df view planned w r).mpr ⟨hr, h1, h2⟩)
    obtain ⟨a, t, heq⟩ := List.exists_cons_of_ne_nil hc
    simp only [estimate]
    rw [heq]
    rfl

/-- C2 applied: with the single-row view `[rA]` (training hours 10),
planned hours 10 and window 50, the row is inside the window, so the
estimate is the windowed mean over the close rows. -/
theorem c2_estimate_app :
    ([rA] : List Record) ≠ [] ∧
    estimate [rA] 10 50 =
      (meanQ ((close_df [rA] 10 50).map (fun r => r.productivity)),
        EstKind.windowed) :=
  ⟨by simp,
   (c2_estimate [rA] 10 50 (by simp)).2.2
     ⟨rA, by simp, by norm_num [rA], by norm_num [rA]⟩⟩

/-! ### C4: the training-hours window formula -/

/-- C4 counterexample: for the two-row view with training hours 0.5 and
515.9, the code computes `window = max(50, int(0.1 * (int(max) -
int(min)))) = max(50, int(0.1 * 515)) = 51`, while the claimed formula
`max(50, 0.1 * (max - min)) = max(50, 51.54) = 51.54` — the claim omits
both integer truncations. -/
theorem c4_window_claim_false :
    ¬ (((window [rC, rD] : ℤ) : ℚ) =
        max 50 ((1 / 10 : ℚ) *
          (colMax ([rC, rD].map (fun r => r.trainingHours)) -
           colMin ([rC, rD].map (fun r => r.trainingHours))))) := by
  intro hcl
  have hmax : colMax ([rC, rD].map (fun r => r.trainingHours)) = 5159 / 10 := by
    show max (1 / 2 : ℚ) (5159 / 10) = 5159 / 10
    exact max_eq_right (by norm_num)
  have hmin : colMin ([rC, rD].map (fun r => r.trainingHours)) = 1 / 2 := by
    show min (1 / 2 : ℚ) (5159 / 10) = 1 / 2
    exact min_eq_left (by norm_num)
  have hMaxT : max_train [rC, rD] = 515 := by
    rw [max_train, hmax, pyInt_of_nonneg (by norm_num), Int.floor_eq_iff]
    norm_num
  have hMinT : min_train [rC, rD] = 0 := by
    rw [min_train, hmin, pyInt_of_nonneg (by norm_num), Int.floor_eq_iff]
    norm_num
  have hwin : window [rC, rD] = 51 := by
    rw [window, train_range, hMaxT, hMinT]
    have e1 : ((515 - 0 : ℤ) : ℚ) = 515 := by norm_num
    rw [e1]
    have e2 : (1 / 10 : ℚ) * 515 = 103 / 2 := by norm_num
    rw [e2, pyInt_of_nonneg (by norm_num)]
    have e3 : ⌊(103 / 2 : ℚ)⌋ = 51 := by
      rw [Int.floor_eq_iff]
      norm_num
    rw [e3]
    rfl
  rw [hwin, hmax, hmin] at hcl
  have e4 : (1 / 10 : ℚ) * (5159 / 10 - 1 / 2) = 2577 / 50 := by norm_num
  rw [e4, max_eq_right (by norm_num : (50 : ℚ) ≤ 2577 / 50)] at hcl
  norm_num at hcl

/-- C4 amended: for a nonempty view the window is
`max(50, ⌊range / 10⌋)` where `range` is the difference of the
integer-truncated maximum and integer-truncated minimum of the view's
training hours (truncation toward zero, `pyInt`; on this nonnegative
argument `int()` is the floor). -/
theorem c4_window_amended (view : List Record) (h : view ≠ []) :
    window view =
      max 50 ⌊((max_train view - min_train view : ℤ) : ℚ) / 10⌋ ∧
    min_train view = pyInt (colMin (view.map (fun r => r.trainingHours))) ∧
    max_train view = pyInt (colMax (view.map (fun r => r.trainingHours))) := by
  refine ⟨?_, rfl, rfl⟩
  rw [window, train_range]
  congr 1
  have hmap : view.map (fun r => r.trainingHours) ≠ [] :=
    fun hh => h (List.map_eq_nil_iff.mp hh)
  have hr : (0 : ℤ) ≤ max_train view - min_train view := by
    have := pyInt_mono (colMin_le_colMax _ hmap)
    rw [min_train, max_train]
    omega
  have h0 : (0 : ℚ) ≤ (1 / 10 : ℚ) * ((max_train view - min_train view : ℤ) : ℚ) := by
    have : (0 : ℚ) ≤ ((max_train view - min_train view : ℤ) : ℚ) := by
      exact_mod_cast hr
    linarith
  rw [pyInt_of_nonneg h0]
  congr 1
  ring

/-- C4 amended, applied to the concrete two-row view with training hours
0.5 and 515.9. -/
theorem c4_window_amended_app :
    ([rC, rD] : List Record) ≠ [] ∧
    (window [rC, rD] =
      max 50 ⌊((max_train [rC, rD] - min_train [rC, rD] : ℤ) : ℚ) / 10⌋ ∧
    min_train [rC, rD] =
      pyInt (colMin ([rC, rD].map (fun r => r.trainingHours))) ∧
    max_train [rC, rD] =
      pyInt (colMax ([rC, rD].map (fun r => r.trainingHours)))) :=
  ⟨by simp, c4_window_amended [rC, rD] (by simp)⟩

/-! ### C10: the slider keeps the planned hours inside the view's range -/

/-- C10: for a nonempty view, the planned training-hours value produced
by the slider always lies between the integer-truncated minimum and the
integer-truncated maximum of the view's training hours, whatever the
user chooses: the widget's bounds are taken from the view, so an
out-of-range planned value cannot occur through the interface. -/
theorem c10_planned_in_bounds (view : List Record) (h : view ≠ [])
    (u : ℤ) :
    min_train view ≤ plannedHours view u ∧
    plannedHours view u ≤ max_train view := by
  have hmap : view.map (fun r => r.trainingHours) ≠ [] :=
    fun hh => h (List.map_eq_nil_iff.mp hh)
  have hmm : min_train view ≤ max_train view :=
    pyInt_mono (colMin_le_colMax _ hmap)
  refine ⟨le_max_left _ _, ?_⟩
  rw [plannedHours]
  exact max_le hmm (min_le_left _ _)

/-- C10 applied: on the one-row view `[rA]` even the out-of-range choice
999 is brought back into the slider's bounds. -/
theorem c10_planned_in_bounds_app :
    ([rA] : List Record) ≠ [] ∧
    (min_train [rA] ≤ plannedHours [rA] 999 ∧
     plannedHours [rA] 999 ≤ max_train [rA]) :=
  ⟨by simp, c10_planned_in_bounds [rA] (by simp) 999⟩

/-! ### C6: empty recommendation view -/

/-- C6: invoked on an empty (but present) view, the recommendation
section takes the guarded "no records" branch before any aggregation or
slider arithmetic runs, returning the displayable no-data outcome; the
embedding is a total function, there is no error path. -/
theorem c6_recommend_empty (u : ℤ) :
    recommend [] u = RecOutcome.noData := rfl

/-! ### C5: zero matching rows yields no signal, only an empty view -/

/-- A selection that matches no row of `[rA]` (rA's industry is "Tech"). -/
def noMatchFilters : Filters := ⟨some "Finance", none, none, none⟩

/-- C5 counterexample: at a concrete table and filter selection with
zero matching rows, the filter pipeline returns the bare empty list and
the KPI stage silently consumes it (record count 0, NaN means, modelled
`none`).  The pipeline's result type is a plain list of rows: no
`NoMatchesSignal` (or any other signal) exists anywhere in the code, so
the claimed reportable condition is never surfaced. -/
theorem c5_no_signal_on_zero_matches :
    filtered_df [rA] noMatchFilters = [] ∧
    kpis [rA] noMatchFilters = ⟨0, none, none⟩ :=
  ⟨rfl, rfl⟩

/-- C5 amended: when the sidebar filters match zero rows the pipeline
silently returns the empty view — the KPI row shows count 0 and
undefined (NaN) means with no distinct signal; the only explicit empty
handling in the code is the recommendation section's `rec_df.empty`
check, which necessarily fires in this case and shows the "no records"
message. -/
theorem c5_empty_view_silent (tbl : List Record) (f : Filters)
    (ri rc : Option String) (u : ℤ) (h : filtered_df tbl f = []) :
    kpis tbl f = ⟨0, none, none⟩ ∧
    recOutcome tbl f ri rc u = RecOutcome.noData := by
  constructor
  · rw [kpis, h]
    rfl
  · rw [recOutcome]
    have hrec : rec_view tbl f ri rc = [] := by
      rw [rec_view_eq_filter, h]
      rfl
    rw [hrec]
    rfl

/-- C5 amended, applied to the concrete zero-match selection. -/
theorem c5_empty_view_silent_app :
    filtered_df [rA] noMatchFilters = [] ∧
    (kpis [rA] noMatchFilters = ⟨0, none, none⟩ ∧
     recOutcome [rA] noMatchFilters none none 0 = RecOutcome.noData) :=
  ⟨rfl, c5_empty_view_silent [rA] noMatchFilters none none 0 rfl⟩

/-! ### C7: grouped mean on an empty group -/

/-- C7 counterexample: the column mean applied to an externally supplied
empty group evaluates to the NaN marker (`none`) — a normal return value
of the total function `colMeanOpt`, whose result type has no error
variant — and grouping an empty frame yields an empty mapping.  Nothing
in the code fails with an `EmptyGroupError`; no such error exists. -/
theorem c7_empty_group_yields_nan :
    colMeanOpt ([] : List ℚ) = none ∧
    toolProductivity ([] : List Record) = [] :=
  ⟨rfl, rfl⟩

/-- C7 amended: the grouped mean never needs an error path in the code's
own uses — every group the grouping operation produces from a view holds
at least one row, and on a nonempty group the mean is the arithmetic
mean; an externally supplied empty group silently yields the undefined
NaN marker (`none`) rather than an explicit error. -/
theorem c7_group_mean_amended :
    colMeanOpt ([] : List ℚ) = none ∧
    (∀ (view : List Record) (k : String),
      k ∈ toolKeys view → groupRows view k ≠ []) ∧
    (∀ g : List Record, g ≠ [] →
      colMeanOpt (g.map (fun r => r.productivity)) =
        some ((g.map (fun r => r.productivity)).sum /
          ((g.map (fun r => r.productivity)).length : ℚ))) := by
  refine ⟨rfl, ?_, ?_⟩
  · intro view k hk
    obtain ⟨r, hr, hrk⟩ :=
      List.mem_map.mp (List.mem_dedup.mp hk)
    have hmem : r ∈ groupRows view k := by
      rw [groupRows, List.mem_filter]
      exact ⟨hr, by rw [hrk, beq_self_eq_true]⟩
    exact List.ne_nil_of_mem hmem
  · intro g hg
    obtain ⟨a, t, rfl⟩ := List.exists_cons_of_ne_nil hg
    rw [colMeanOpt]
    rfl

/-- C7 amended, applied: the "ToolA" group of `[rA, rB]` is nonempty,
and the mean over the nonempty group `[rA]` is its arithmetic mean. -/
theorem c7_group_mean_amended_app :
    groupRows [rA, rB] "ToolA" ≠ [] ∧
    colMeanOpt ([rA].map (fun r => r.productivity)) =
      some (([rA].map (fun r => r.productivity)).sum /
        (([rA].map (fun r => r.productivity)).length : ℚ)) :=
  ⟨c7_group_mean_amended.2.1 [rA, rB] "ToolA" (by decide),
   c7_group_mean_amended.2.2 [rA] (by simp)⟩

/-! ### Concrete applications of the universally quantified claims -/

def fAll : Filters := ⟨none, none, none, none⟩

/-- C1: the claimed filter contract — the view holds exactly the table
rows satisfying every active constraint, in order — is the evident
intent of the code: `load_data` renames the column to `GenAI_Tool` and
every other access (lines 124, 133, 184, 208, 271) uses that name.  But
the tool filter at line 57 (like the selectbox at line 44) still reads
the stale name `GenAI Tool`, so the program raises `KeyError` whenever
a tool constraint is active: at the concrete input below (table `[rA]`,
tool constraint "ToolA") the pipeline errors out, while the claim
requires the view `[rA]` — the sole row, which does satisfy the
constraint. -/
theorem c1_tool_filter_keyerror :
    filtered_df_run [rA] ⟨none, none, some "ToolA", none⟩ =
      Except.error "KeyError: GenAI Tool" ∧
    [rA].filter (fun r => rowOk ⟨none, none, some "ToolA", none⟩ r) =
      [rA] :=
  ⟨rfl, by decide⟩

/-- C3 applied at the concrete two-row view (tools "ToolA" with mean 5
and "ToolB" with mean 15). -/
theorem c3_best_tool_app :
    ([rA, rB] : List Record) ≠ [] ∧
    (top_tool [rA, rB] ∈ [rA, rB].map (fun r => r.tool) ∧
     top_prod [rA, rB] =
       meanQ (([rA, rB].filter (fun r => r.tool == top_tool [rA, rB])).map
         (fun r => r.productivity)) ∧
     n_recs [rA, rB] =
       ([rA, rB].filter (fun r => r.tool == top_tool [rA, rB])).length ∧
     ∀ k ∈ [rA, rB].map (fun r => r.tool),
       meanQ (([rA, rB].filter (fun r => r.tool == k)).map
         (fun r => r.productivity)) ≤ top_prod [rA, rB]) :=
  ⟨by simp, c3_best_tool [rA, rB] (by simp)⟩

/-- C9 applied at the concrete table `[rA, rB]` with no sidebar
constraint and the recommendation industry "Tech". -/
theorem c9_rec_view_refines_filtered_app :
    (rec_view [rA, rB] fAll (some "Tech") none).Sublist
      (filtered_df [rA, rB] fAll) ∧
    (∀ r ∈ rec_view [rA, rB] fAll (some "Tech") none,
      r ∈ [rA, rB] ∧
      (∀ v, fAll.industry = some v → r.industry = v) ∧
      (∀ v, fAll.country = some v → r.country = v) ∧
      (∀ v, fAll.tool = some v → r.tool = v) ∧
      (∀ v, fAll.year = some v → r.year = v) ∧
      (∀ v, (some "Tech" : Option String) = some v → r.industry = v) ∧
      (∀ v, (none : Option String) = some v → r.country = v)) :=
  c9_rec_view_refines_filtered [rA, rB] fAll (some "Tech") none

end GenAIDash
